import Mathlib

/-!
# Verification of the gt_test action-event pipeline

Shallow embedding of `src/gttest_main.py` (taxonomy lookup tables, summary
statistics, detailed listing, `main` control flow) together with the
spec-modelled core operations (`select`, `generate`, event construction)
whose implementation lives in the analysis module that is not part of the
visible sources.  Times are modelled as rationals.
-/

namespace GTTest

/-- The `type_to_number` dict of `display_detailed_events`
(src/gttest_main.py lines 145-158), as an association list in source order. -/
def typeToNumberTable : List (String × Nat) :=
  [("consult_sheets", 2),
   ("turn_sheets", 3),
   ("take_screwdriver", 4),
   ("put_down_screwdriver", 5),
   ("picking_in_front", 6),
   ("picking_left", 7),
   ("take_measuring_rod", 8),
   ("put_down_measuring_rod", 9),
   ("take_subsystem", 10),
   ("put_down_subsystem", 11),
   ("assemble_system", 12),
   ("meta_action", 1)]

/-- Association-list lookup mirroring Python `dict.get(key, default)`:
first matching key wins, otherwise the default. -/
def dictGet {β : Type} : List (String × β) → String → β → β
  | [], _, d => d
  | (k, v) :: rest, key, d => if k = key then v else dictGet rest key d

/-- `type_to_number.get(event_type, 1)` (src/gttest_main.py line 166). -/
def type_to_number (s : String) : Nat :=
  dictGet typeToNumberTable s 1

/-- The `display_names` dict of `display_detailed_events`
(src/gttest_main.py lines 169-182). -/
def displayNamesTable : List (String × String) :=
  [("consult_sheets", "Consult sheets"),
   ("turn_sheets", "Turn sheets"),
   ("take_screwdriver", "Take screwdriver"),
   ("put_down_screwdriver", "Put down screwdriver"),
   ("picking_in_front", "Picking in front"),
   ("picking_left", "Picking left"),
   ("take_measuring_rod", "Take measuring rod"),
   ("put_down_measuring_rod", "Put down measuring rod"),
   ("take_subsystem", "Take subsystem"),
   ("put_down_subsystem", "Put down subsystem"),
   ("assemble_system", "Assemble system"),
   ("meta_action", "Meta action")]

/-- `display_names.get(event_type, event_type)` (src/gttest_main.py line 184). -/
def display_name (s : String) : String :=
  dictGet displayNamesTable s s

/-- The 12 known kind strings: the key set of the taxonomy tables. -/
def knownKinds : List String := typeToNumberTable.map Prod.fst

theorem dictGet_default {β : Type} (l : List (String × β)) (key : String) (d : β)
    (h : ∀ p ∈ l, p.1 ≠ key) : dictGet l key d = d := by
  induction l with
  | nil => rfl
  | cons p rest ih =>
    have hp : p.1 ≠ key := h p (List.mem_cons_self p rest)
    simp only [dictGet, if_neg hp]
    exact ih fun q hq => h q (List.mem_cons_of_mem p hq)

/-- Modelled from the spec: the `Event` record of §3 — one validated,
timestamped occurrence of an action kind.  The constructor of the analysis
module is not among the visible sources; times are rationals (seconds). -/
structure Event where
  kind : String
  start_time : ℚ
  end_time : ℚ
deriving DecidableEq, Repr

/-- Modelled from the spec: `duration: derived = end_time − start_time`. -/
def Event.duration (e : Event) : ℚ := e.end_time - e.start_time

/-- Modelled from the spec: the default robot-actionable subset of the
taxonomy (§3): manipulation kinds (`take_*`, `put_down_*`, `picking_*`,
`assemble_system`), excluding pure-observation kinds. -/
def defaultPolicy : List String :=
  ["take_screwdriver", "put_down_screwdriver", "picking_in_front",
   "picking_left", "take_measuring_rod", "put_down_measuring_rod",
   "take_subsystem", "put_down_subsystem", "assemble_system"]

/-- Modelled from the spec: `select(events, policy)` of §4.2 — the
analyzer's `select_robot_actions` is not among the visible sources.  A
single linear pass retaining each event iff its kind is in the policy's
actionable set. -/
def select (events : List Event) (policy : List String) : List Event :=
  events.filter fun e => policy.contains e.kind

/-- The spec's §8 example input events:
`[{turn_sheets, 0.0, 2.0}, {take_screwdriver, 2.0, 3.5},
  {put_down_screwdriver, 10.0, 10.5}]`. -/
def exTurnSheets : Event := ⟨"turn_sheets", 0, 2⟩

/-- Spec §8 example: the `take_screwdriver(2.0–3.5)` event. -/
def exTakeScrew : Event := ⟨"take_screwdriver", 2, 7/2⟩

/-- Spec §8 example: the `put_down_screwdriver(10.0–10.5)` event. -/
def exPutScrew : Event := ⟨"put_down_screwdriver", 10, 21/2⟩

/-- Spec §8 example: the full input sequence. -/
def exEvents : List Event := [exTurnSheets, exTakeScrew, exPutScrew]

/-- C3: an event of the input sequence is a member of
`select(events, policy)` iff its kind is in the policy's actionable set:
selection retains exactly the robot-actionable events and drops all
others. -/
theorem select_mem_iff (events : List Event) (policy : List String)
    (e : Event) (he : e ∈ events) :
    e ∈ select events policy ↔ e.kind ∈ policy := by
  simp [select, List.mem_filter, he]

/-- Witness for C3 at the spec's example sequence: the
`take_screwdriver` event is in the input and is selected by the default
policy. -/
theorem select_mem_iff_witness :
    exTakeScrew ∈ exEvents ∧
      (exTakeScrew ∈ select exEvents defaultPolicy ↔
        exTakeScrew.kind ∈ defaultPolicy) :=
  ⟨List.mem_cons_of_mem _ (List.mem_cons_self _ _),
   select_mem_iff exEvents defaultPolicy exTakeScrew
     (List.mem_cons_of_mem _ (List.mem_cons_self _ _))⟩

/-- C4: `select` returns its retained events as a sublist of the input:
the same relative order as in the input sequence, with no reordering and
no secondary sort (in particular events sharing a `start_time` keep their
input order). -/
theorem select_sublist (events : List Event) (policy : List String) :
    (select events policy).Sublist events :=
  List.filter_sublist events

/-- Modelled from the spec: the `EmptySelection` failure of §7 — the only
failure of the script generator. -/
inductive GenError
  | emptySelection
deriving DecidableEq, Repr

/-- Modelled from the spec: one robot command of a `RobotScript` (§4.3):
the action's numeric code, a start offset relative to the first selected
event, and a duration. -/
structure Command where
  code : Nat
  offset : ℚ
  duration : ℚ
deriving DecidableEq, Repr

/-- Modelled from the spec: `generate(selection)` of §4.3 — the analyzer's
`generate_robot_script` is not among the visible sources.  Fails with
`EmptySelection` on an empty selection; otherwise emits, for each selected
event in order, one command with the kind's numeric code, offset
`event.start_time − selection[0].start_time` and the event's duration. -/
def generate : List Event → Except GenError (List Command)
  | [] => .error .emptySelection
  | e₀ :: rest =>
    .ok ((e₀ :: rest).map fun e =>
      { code := type_to_number e.kind
        offset := e.start_time - e₀.start_time
        duration := e.duration })

/-- The sequence of command offsets of a generation result (empty for a
failed generation). -/
def scriptOffsets : Except GenError (List Command) → List ℚ
  | .error _ => []
  | .ok cmds => cmds.map Command.offset

/-- Spec §8 example: the selection
`[take_screwdriver(2.0–3.5), put_down_screwdriver(10.0–10.5)]`. -/
def exSelection : List Event := [exTakeScrew, exPutScrew]

/-- C6: for a script generated from a non-empty selection ordered
non-decreasing by `start_time`, the command offsets are non-decreasing and
the first offset is exactly 0; on the spec's example selection the two
offsets are 0 and 8. -/
theorem generate_offsets_monotone :
    (∀ (e₀ : Event) (rest : List Event),
        (e₀ :: rest).Chain' (fun a b => a.start_time ≤ b.start_time) →
        (scriptOffsets (generate (e₀ :: rest))).head? = some 0 ∧
          (scriptOffsets (generate (e₀ :: rest))).Chain' (· ≤ ·)) ∧
    scriptOffsets (generate exSelection) = [0, 8] := by
  constructor
  · intro e₀ rest hs
    have hoff : scriptOffsets (generate (e₀ :: rest)) =
        (e₀ :: rest).map fun e => e.start_time - e₀.start_time := by
      simp [generate, scriptOffsets, Function.comp]
    rw [hoff]
    constructor
    · simp
    · rw [List.chain'_map]
      exact hs.imp fun a b hab => sub_le_sub_right hab _
  · norm_num [generate, scriptOffsets, exSelection, exTakeScrew, exPutScrew,
      Event.duration]

/-- Witness for C6 at the spec's example selection. -/
theorem generate_offsets_monotone_witness :
    List.Chain' (fun a b => a.start_time ≤ b.start_time)
        (exTakeScrew :: [exPutScrew]) ∧
      ((scriptOffsets (generate (exTakeScrew :: [exPutScrew]))).head? =
          some 0 ∧
        (scriptOffsets (generate (exTakeScrew :: [exPutScrew]))).Chain'
          (· ≤ ·)) :=
  ⟨by norm_num [exTakeScrew, exPutScrew],
   generate_offsets_monotone.1 exTakeScrew [exPutScrew]
     (by norm_num [exTakeScrew, exPutScrew])⟩

/-- Modelled from the spec: the `InvalidTimeRange` failure of §7 — the
failure of validated event construction. -/
inductive EventError
  | invalidTimeRange
deriving DecidableEq, Repr

/-- Modelled from the spec: validated `Event` construction of §4.1 from a
raw (kind-string, start_time, end_time) triple — the classifier-facing
constructor is not among the visible sources.  `start_time` and `end_time`
must be non-negative (finiteness is inherent in ℚ) and construction fails
with `InvalidTimeRange` if `end_time < start_time`. -/
def mkEvent (kind : String) (s e : ℚ) : Except EventError Event :=
  if s < 0 then .error .invalidTimeRange
  else if e < 0 then .error .invalidTimeRange
  else if e < s then .error .invalidTimeRange
  else .ok ⟨kind, s, e⟩

/-- C7: constructing an event with `end_time < start_time` fails with
`InvalidTimeRange`, and every successfully constructed event has a
non-negative derived duration. -/
theorem mkEvent_spec :
    (∀ (k : String) (s e : ℚ), e < s →
        mkEvent k s e = .error .invalidTimeRange) ∧
    (∀ (k : String) (s e : ℚ) (ev : Event), mkEvent k s e = .ok ev →
        0 ≤ ev.duration) := by
  constructor
  · intro k s e h
    simp only [mkEvent]
    split_ifs <;> rfl
  · intro k s e ev hok
    simp only [mkEvent] at hok
    split_ifs at hok with h1 h2 h3
    injection hok with hev
    subst hev
    simpa [Event.duration, sub_nonneg] using le_of_not_lt h3

/-- Witness for C7: the triple (meta_action, 1, 0) is rejected with
`InvalidTimeRange`, and the valid triple (meta_action, 0, 2) yields an
event with non-negative duration. -/
theorem mkEvent_spec_witness :
    ((0 : ℚ) < 1 ∧
        mkEvent "meta_action" 1 0 = .error .invalidTimeRange) ∧
      (mkEvent "meta_action" 0 2 = .ok ⟨"meta_action", 0, 2⟩ ∧
        0 ≤ Event.duration ⟨"meta_action", 0, 2⟩) :=
  ⟨⟨by norm_num, mkEvent_spec.1 "meta_action" 1 0 (by norm_num)⟩,
   ⟨by norm_num [mkEvent],
    mkEvent_spec.2 "meta_action" 0 2 ⟨"meta_action", 0, 2⟩
      (by norm_num [mkEvent])⟩⟩

/-- An event dict as handled by `display_events_summary` and
`display_detailed_events` (src/gttest_main.py): `event['type']` is a
mandatory key, while `start_time`, `end_time` and `duration` are read with
`event.get(key, 0)` and may be absent. -/
structure RawEvent where
  type : String
  start_time : Option ℚ
  end_time : Option ℚ
  duration : Option ℚ
deriving DecidableEq, Repr

/-- `event.get('duration', 0)` (src/gttest_main.py line 118). -/
def eventDuration (e : RawEvent) : ℚ := e.duration.getD 0

/-- `event.get('start_time', 0)` (src/gttest_main.py line 187). -/
def listedStart (e : RawEvent) : ℚ := e.start_time.getD 0

/-- `event.get('end_time', 0)` (src/gttest_main.py line 188). -/
def listedEnd (e : RawEvent) : ℚ := e.end_time.getD 0

/-- One step of the `event_counts` dict update of `display_events_summary`
(src/gttest_main.py lines 120-124): create the entry on first sight,
then increment its count and add the event's duration. -/
def updateCounts (acc : List (String × Nat × ℚ)) (ty : String) (d : ℚ) :
    List (String × Nat × ℚ) :=
  match acc with
  | [] => [(ty, 1, d)]
  | (t, c, td) :: rest =>
    if t = ty then (t, c + 1, td + d) :: rest
    else (t, c, td) :: updateCounts rest ty d

/-- The `event_counts` dict built by the loop of `display_events_summary`
(src/gttest_main.py lines 113-125), as an association list
kind ↦ (count, total_duration). -/
def eventCounts (events : List RawEvent) : List (String × Nat × ℚ) :=
  events.foldl (fun acc e => updateCounts acc e.type (eventDuration e)) []

/-- The `total_duration` accumulator of `display_events_summary`
(src/gttest_main.py lines 114, 125). -/
def total_duration (events : List RawEvent) : ℚ :=
  events.foldl (fun acc e => acc + eventDuration e) 0

/-- Reading a kind's reported count from the `event_counts` table
(`event_counts[k]['count']`; 0 when the kind never occurred). -/
def getCount : List (String × Nat × ℚ) → String → Nat
  | [], _ => 0
  | (t, c, _) :: rest, k => if t = k then c else getCount rest k

/-- Reading a kind's reported total duration from the `event_counts` table
(`event_counts[k]['total_duration']`; 0 when the kind never occurred). -/
def getDur : List (String × Nat × ℚ) → String → ℚ
  | [], _ => 0
  | (t, _, d) :: rest, k => if t = k then d else getDur rest k

theorem getCount_updateCounts (acc : List (String × Nat × ℚ))
    (ty : String) (d : ℚ) (k : String) :
    getCount (updateCounts acc ty d) k =
      getCount acc k + (if ty = k then 1 else 0) := by
  induction acc with
  | nil => by_cases h : ty = k <;> simp [updateCounts, getCount, h]
  | cons p rest ih =>
    obtain ⟨t, c, td⟩ := p
    by_cases ht : t = ty
    · subst ht
      by_cases hk : t = k <;> simp [updateCounts, getCount, hk]
    · by_cases hk : t = k
      · subst hk
        have hne : ¬ ty = t := fun h => ht h.symm
        simp [updateCounts, getCount, ht, hne]
      · simp [updateCounts, getCount, ht, hk, ih]

theorem getDur_updateCounts (acc : List (String × Nat × ℚ))
    (ty : String) (d : ℚ) (k : String) :
    getDur (updateCounts acc ty d) k =
      getDur acc k + (if ty = k then d else 0) := by
  induction acc with
  | nil => by_cases h : ty = k <;> simp [updateCounts, getDur, h]
  | cons p rest ih =>
    obtain ⟨t, c, td⟩ := p
    by_cases ht : t = ty
    · subst ht
      by_cases hk : t = k <;> simp [updateCounts, getDur, hk]
    · by_cases hk : t = k
      · subst hk
        have hne : ¬ ty = t := fun h => ht h.symm
        simp [updateCounts, getDur, ht, hne]
      · simp [updateCounts, getDur, ht, hk, ih]

theorem getCount_foldl (events : List RawEvent)
    (acc : List (String × Nat × ℚ)) (k : String) :
    getCount
        (events.foldl (fun a e => updateCounts a e.type (eventDuration e))
          acc) k =
      getCount acc k + (events.filter fun e => e.type = k).length := by
  induction events generalizing acc with
  | nil => simp
  | cons e rest ih =>
    rw [List.foldl_cons, ih, getCount_updateCounts]
    by_cases h : e.type = k <;> simp [List.filter_cons, h]
    omega

theorem getDur_foldl (events : List RawEvent)
    (acc : List (String × Nat × ℚ)) (k : String) :
    getDur
        (events.foldl (fun a e => updateCounts a e.type (eventDuration e))
          acc) k =
      getDur acc k +
        ((events.filter fun e => e.type = k).map eventDuration).sum := by
  induction events generalizing acc with
  | nil => simp
  | cons e rest ih =>
    rw [List.foldl_cons, ih, getDur_updateCounts]
    by_cases h : e.type = k <;> simp [List.filter_cons, h]
    ring

theorem foldl_add_eventDuration (events : List RawEvent) (a : ℚ) :
    events.foldl (fun acc e => acc + eventDuration e) a =
      a + (events.map eventDuration).sum := by
  induction events generalizing a with
  | nil => simp
  | cons e rest ih => simp [List.foldl_cons, ih, add_assoc]

/-- C8: the summary statistics report, for every kind, the count of the
events of that kind and the sum of their stored durations, and the
reported total analysis time is the sum of the duration fields of all
events. -/
theorem summary_statistics_correct (events : List RawEvent) (k : String) :
    getCount (eventCounts events) k =
        (events.filter fun e => e.type = k).length ∧
      getDur (eventCounts events) k =
        ((events.filter fun e => e.type = k).map eventDuration).sum ∧
      total_duration events = (events.map eventDuration).sum := by
  refine ⟨?_, ?_, ?_⟩
  · simpa [eventCounts, getCount] using getCount_foldl events [] k
  · simpa [eventCounts, getDur] using getDur_foldl events [] k
  · simpa [total_duration] using foldl_add_eventDuration events 0

/-- C10: an event dict without a `duration` key contributes 0 to the
summary statistics — the duration is taken from the stored field with
default 0 and never recomputed from the `start_time`/`end_time` bounds —
and the detailed listing substitutes 0 for a missing `start_time` or
`end_time`. -/
theorem missing_field_defaults (t : String) (os oe od : Option ℚ) :
    eventDuration ⟨t, os, oe, none⟩ = 0 ∧
      listedStart ⟨t, none, oe, od⟩ = 0 ∧
      listedEnd ⟨t, os, none, od⟩ = 0 :=
  ⟨rfl, rfl, rfl⟩

/-- Modelled from the spec: the analyzer's `select_robot_actions` applied
to the raw event dicts (src/gttest_main.py line 100) — the analysis module
is not among the visible sources.  Retains the events whose kind is in the
default robot-actionable set. -/
def selectRaw (events : List RawEvent) : List RawEvent :=
  events.filter fun e => defaultPolicy.contains e.type

/-- The environment a run of `main` observes: the video path obtained from
the user (`None` when the user gives up), whether `WorkerAnalysisSystem`
initialization succeeds, the analyzer's event list (`none` models an
exception inside `analyzer.analyze_video()`), and the path the script
generator would return. -/
structure RunEnv where
  video_path : Option String
  init_ok : Bool
  analyzer_events : Option (List RawEvent)
  gen_path : String
deriving Repr

/-- `analyze_video` (src/gttest_main.py lines 84-105): `None` on an
analyzer exception or when the analyzer reports no events, otherwise the
events paired with the robot-selected events. -/
def analyze_video (r : Option (List RawEvent)) :
    Option (List RawEvent × List RawEvent) :=
  match r with
  | none => none
  | some events =>
    if events = [] then none else some (events, selectRaw events)

/-- `main` (src/gttest_main.py lines 209-268), returning its boolean result
together with `robot_script_path`: `False` when no video path is obtained,
when initialization raises, or when `analyze_video` yields no data or an
empty event list; otherwise the script is generated only for a non-empty
robot selection and the run returns `True`. -/
def main_result (env : RunEnv) : Bool × Option String :=
  match env.video_path with
  | none => (false, none)
  | some _ =>
    if env.init_ok = false then (false, none)
    else
      match analyze_video env.analyzer_events with
      | none => (false, none)
      | some (events, robot_events) =>
        if events = [] then (false, none)
        else if robot_events = [] then (true, none)
        else (true, some env.gen_path)

/-- `sys.exit(0 if success else 1)` (src/gttest_main.py lines 270-272). -/
def exit_code (env : RunEnv) : Nat :=
  if (main_result env).1 then 0 else 1

/-- C9: the process exits with status 1 when no video path is obtained,
when analyzer initialization fails, when the analysis yields no data, or
when the analyzed event list is empty, and with status 0 when the full run
succeeds. -/
theorem exit_code_spec (env : RunEnv) :
    (env.video_path = none → exit_code env = 1) ∧
      (env.init_ok = false → exit_code env = 1) ∧
      (env.analyzer_events = none → exit_code env = 1) ∧
      (env.analyzer_events = some [] → exit_code env = 1) ∧
      (∀ (p : String) (l : List RawEvent), env.video_path = some p →
        env.init_ok = true → env.analyzer_events = some l → l ≠ [] →
        exit_code env = 0) := by
  obtain ⟨vp, init, ae, gp⟩ := env
  refine ⟨?_, ?_, ?_, ?_, ?_⟩
  · rintro rfl
    rfl
  · rintro rfl
    cases vp <;> rfl
  · rintro rfl
    cases vp <;> cases init <;> rfl
  · rintro rfl
    cases vp <;> cases init <;> rfl
  · rintro p l rfl rfl rfl hl
    simp [exit_code, main_result, analyze_video, hl, apply_ite]

/-- Witness for C9: a run with a video path, successful initialization and
one analyzed event exits with status 0. -/
theorem exit_code_spec_witness :
    (RunEnv.mk (some "v.mp4") true
          (some [⟨"turn_sheets", some 0, some 2, some 2⟩]) "s").video_path =
        some "v.mp4" ∧
      ([(⟨"turn_sheets", some 0, some 2, some 2⟩ : RawEvent)] ≠ []) ∧
      exit_code
        (RunEnv.mk (some "v.mp4") true
          (some [⟨"turn_sheets", some 0, some 2, some 2⟩]) "s") = 0 :=
  ⟨rfl, by simp,
   exit_code_spec
     (RunEnv.mk (some "v.mp4") true
       (some [⟨"turn_sheets", some 0, some 2, some 2⟩]) "s") |>.2.2.2.2
     "v.mp4" [⟨"turn_sheets", some 0, some 2, some 2⟩] rfl rfl rfl
     (by simp)⟩

/-- C5: `generate` on an empty selection fails with `EmptySelection` and
produces no commands, and in `main` an empty robot selection skips script
generation entirely (no script path) while the run still completes
successfully. -/
theorem empty_selection_behavior :
    (generate [] = .error .emptySelection ∧ scriptOffsets (generate []) = []) ∧
    (∀ (env : RunEnv) (p : String) (l : List RawEvent),
      env.video_path = some p → env.init_ok = true →
      env.analyzer_events = some l → l ≠ [] → selectRaw l = [] →
      main_result env = (true, none)) := by
  refine ⟨⟨rfl, rfl⟩, ?_⟩
  rintro ⟨vp, init, ae, gp⟩ p l rfl rfl rfl hl hsel
  simp [main_result, analyze_video, if_neg hl, hsel]

/-- Witness for C5: a run whose only analyzed event is a non-actionable
`turn_sheets` event completes successfully with no robot script. -/
theorem empty_selection_behavior_witness :
    ([(⟨"turn_sheets", some 0, some 2, some 2⟩ : RawEvent)] ≠ []) ∧
      selectRaw [⟨"turn_sheets", some 0, some 2, some 2⟩] = [] ∧
      main_result
        (RunEnv.mk (some "v.mp4") true
          (some [⟨"turn_sheets", some 0, some 2, some 2⟩]) "s") =
        (true, none) :=
  ⟨by simp, by simp [selectRaw, defaultPolicy],
   empty_selection_behavior.2
     (RunEnv.mk (some "v.mp4") true
       (some [⟨"turn_sheets", some 0, some 2, some 2⟩]) "s")
     "v.mp4" [⟨"turn_sheets", some 0, some 2, some 2⟩] rfl rfl rfl
     (by simp) (by simp [selectRaw, defaultPolicy])⟩

/-- C1: the taxonomy lookup tables assign to each of the 12 named action
kinds exactly the numeric code listed in the spec, and both the code map and
the display-name map are injective over the 12 kinds (pairwise distinct
codes, pairwise distinct labels). -/
theorem taxonomy_codes_and_injective :
    (type_to_number "meta_action" = 1 ∧
     type_to_number "consult_sheets" = 2 ∧
     type_to_number "turn_sheets" = 3 ∧
     type_to_number "take_screwdriver" = 4 ∧
     type_to_number "put_down_screwdriver" = 5 ∧
     type_to_number "picking_in_front" = 6 ∧
     type_to_number "picking_left" = 7 ∧
     type_to_number "take_measuring_rod" = 8 ∧
     type_to_number "put_down_measuring_rod" = 9 ∧
     type_to_number "take_subsystem" = 10 ∧
     type_to_number "put_down_subsystem" = 11 ∧
     type_to_number "assemble_system" = 12) ∧
    knownKinds.Pairwise
      (fun a b => type_to_number a ≠ type_to_number b ∧
                  display_name a ≠ display_name b) := by
  constructor
  · decide
  · decide

/-- C2: a kind string that is not one of the 12 known taxonomy kinds is
mapped to numeric code 1 (the `meta_action` fallback) and its raw string is
used verbatim as the display label. -/
theorem unknown_kind_fallback (s : String) (h : s ∉ knownKinds) :
    type_to_number s = 1 ∧ display_name s = s := by
  constructor
  · refine dictGet_default _ _ _ fun p hp hk => h ?_
    exact hk ▸ List.mem_map_of_mem Prod.fst hp
  · refine dictGet_default _ _ _ fun p hp hk => h ?_
    have hsub : ∀ p ∈ displayNamesTable, p.1 ∈ knownKinds := by decide
    exact hk ▸ hsub p hp

/-- Witness for C2 at the concrete unknown kind string "grab_wrench". -/
theorem unknown_kind_fallback_witness :
    "grab_wrench" ∉ knownKinds ∧
      (type_to_number "grab_wrench" = 1 ∧
       display_name "grab_wrench" = "grab_wrench") :=
  ⟨by decide, unknown_kind_fallback "grab_wrench" (by decide)⟩

end GTTest
